import Mathlib

/-!
Verification of the JUnit-XML-to-report scripts (junit_parser1.py and
junit_parser2.py) against their specification.  The XML tree, the Python
numeric conversions and both parsers plus the rendering computations of
the report generator are embedded shallowly; machine floats are modelled
as exact rationals.
-/

namespace TestReporter

/-- An XML element as exposed by xml.etree.ElementTree: a tag, the
attribute dictionary (in document order, first binding wins), the direct
child elements in document order, and the text content (None when the
element has no text). -/
structure Element where
  tag : String
  attrs : List (String × String)
  children : List Element
  text : Option String

/-- Model of Element.attrib.get(k) / Element.get(k): the value of
attribute k when present. -/
def Element.getAttr? (e : Element) (k : String) : Option String :=
  (e.attrs.find? (fun p => p.1 == k)).map (fun p => p.2)

/-- Model of Element.get(k, d): the value of attribute k, defaulting to d. -/
def Element.getAttrD (e : Element) (k d : String) : String :=
  (e.getAttr? k).getD d

/-- Model of Element.findall(t): the direct children with tag t, in
document order. -/
def Element.findall (e : Element) (t : String) : List Element :=
  e.children.filter (fun c => c.tag == t)

/-- Model of Element.find(t): the first direct child with tag t, if any. -/
def Element.findChild (e : Element) (t : String) : Option Element :=
  e.children.find? (fun c => c.tag == t)

/-- The whitespace characters str.strip removes. -/
def pyWhitespace (c : Char) : Bool :=
  c == ' ' || c == '\t' || c == '\n' || c == '\r' || c == '\x0b' || c == '\x0c'

/-- Surrounding whitespace removed from a character list. -/
def trimChars (l : List Char) : List Char :=
  ((l.dropWhile pyWhitespace).reverse.dropWhile pyWhitespace).reverse

/-- Numeric value of a list of ASCII digits. -/
def digitsVal (l : List Char) : Nat :=
  l.foldl (fun a c => a * 10 + (c.toNat - 48)) 0

/-- An optional leading sign split off a character list. -/
def splitSign (l : List Char) : Int × List Char :=
  match l with
  | '-' :: rest => ((-1 : Int), rest)
  | '+' :: rest => ((1 : Int), rest)
  | _ => ((1 : Int), l)

/-- A character list split at every dot. -/
def splitDot : List Char → List (List Char)
  | [] => [[]]
  | c :: rest =>
    if c = '.' then [] :: splitDot rest
    else
      match splitDot rest with
      | [] => [[c]]
      | h :: t => (c :: h) :: t

/-- Model of the Python built-in int() on strings: optional surrounding
whitespace, an optional sign, then one or more ASCII digits; anything
else raises ValueError (modelled as none).  Underscore separators and
non-ASCII digits are outside the inputs the claims exercise. -/
def pyInt (s : String) : Option Int :=
  let (sign, digits) := splitSign (trimChars s.data)
  if !digits.isEmpty && digits.all (fun c => c.isDigit) then
    some (sign * (digitsVal digits : Int))
  else none

/-- Model of the Python built-in float() on strings, restricted to plain
decimal literals (optional surrounding whitespace, optional sign, digits
with an optional fractional part); the value is kept as an exact
rational.  Exponent and infinity forms are outside the inputs the claims
exercise; anything unparseable raises ValueError (modelled as none). -/
def pyFloat (s : String) : Option Rat :=
  let (sign, body) := splitSign (trimChars s.data)
  match splitDot body with
  | [ip] =>
    if !ip.isEmpty && ip.all (fun c => c.isDigit) then
      some (mkRat (sign * (digitsVal ip : Int)) 1)
    else none
  | [ip, fp] =>
    if (!ip.isEmpty || !fp.isEmpty)
        && ip.all (fun c => c.isDigit) && fp.all (fun c => c.isDigit) then
      some (mkRat
        (sign * ((digitsVal ip : Int) * 10 ^ fp.length + (digitsVal fp : Int)))
        (10 ^ fp.length))
    else none
  | _ => none

/-- The two ways the scripts raise: the explicit raise ValueError for
malformed XML or an unexpected root tag (the ParseError of the spec), and
the ValueError propagating unwrapped out of a numeric conversion. -/
inductive PyErr where
  | parseError (msg : String)
  | valueError (value : String)
deriving Repr, DecidableEq

/-- int() as it occurs inline in the parsers: the converted value or the
propagating ValueError carrying the offending string. -/
def toIntE (s : String) : Except PyErr Int :=
  match pyInt s with
  | some n => Except.ok n
  | none => Except.error (PyErr.valueError s)

/-- float() as it occurs inline in the parsers. -/
def toFloatE (s : String) : Except PyErr Rat :=
  match pyFloat s with
  | some q => Except.ok q
  | none => Except.error (PyErr.valueError s)

/-- Python x or d for an optional string: None and the empty string are
falsy and give the default. -/
def textOr (t : Option String) (d : String) : String :=
  match t with
  | some s => if s = "" then d else s
  | none => d

/-- TestCase dataclass of junit_parser2.py. -/
structure TestCase where
  name : String
  classname : String
  time : Rat
  status : String
  failure_message : Option String
  failure_details : Option String
  skipped_message : Option String
deriving Repr, DecidableEq

/-- TestSuite dataclass of junit_parser2.py. -/
structure TestSuite where
  name : String
  tests : Int
  failures : Int
  errors : Int
  skipped : Int
  time : Rat
  test_cases : List TestCase
deriving Repr, DecidableEq

namespace JUnitXMLParser

/-- JUnitXMLParser._parse_testcase of junit_parser2.py. -/
def parse_testcase (e : Element) : Except PyErr TestCase :=
  match toFloatE (e.getAttrD "time" "0") with
  | Except.error err => Except.error err
  | Except.ok time =>
    let name := e.getAttrD "name" "Unknown"
    let classname := e.getAttrD "classname" "Unknown"
    match e.findChild "failure" with
    | some failure_elem =>
      Except.ok ⟨name, classname, time, "failed",
        some (failure_elem.getAttrD "message" "No message"),
        some (textOr failure_elem.text "No details"), none⟩
    | none =>
      match e.findChild "error" with
      | some error_elem =>
        Except.ok ⟨name, classname, time, "error",
          some (error_elem.getAttrD "message" "No message"),
          some (textOr error_elem.text "No details"), none⟩
      | none =>
        match e.findChild "skipped" with
        | some skipped_elem =>
          Except.ok ⟨name, classname, time, "skipped", none, none,
            some (skipped_elem.getAttrD "message" "Test skipped")⟩
        | none =>
          Except.ok ⟨name, classname, time, "passed", none, none, none⟩

/-- JUnitXMLParser._parse_testsuite of junit_parser2.py. -/
def parse_testsuite (e : Element) : Except PyErr TestSuite := do
  let name := e.getAttrD "name" "Unknown"
  let tests ← toIntE (e.getAttrD "tests" "0")
  let failures ← toIntE (e.getAttrD "failures" "0")
  let errors ← toIntE (e.getAttrD "errors" "0")
  let skipped ← toIntE (e.getAttrD "skipped" "0")
  let time ← toFloatE (e.getAttrD "time" "0")
  let test_cases ← (e.findall "testcase").mapM parse_testcase
  return ⟨name, tests, failures, errors, skipped, time, test_cases⟩

/-- JUnitXMLParser.parse of junit_parser2.py.  The input is the parsed
XML tree when the file is well formed, none when ET.parse raises (which
the code turns into the explicit ValueError, the ParseError of the
spec). -/
def parse (input : Option Element) : Except PyErr (List TestSuite) :=
  match input with
  | none => Except.error (PyErr.parseError "Invalid XML file")
  | some root =>
    if root.tag = "testsuite" then
      match parse_testsuite root with
      | Except.ok ts => Except.ok [ts]
      | Except.error err => Except.error err
    else if root.tag = "testsuites" then
      (root.findall "testsuite").mapM parse_testsuite
    else
      Except.error (PyErr.parseError ("Unexpected root element: " ++ root.tag))

end JUnitXMLParser

/-- Font colors the report generator assigns. -/
inductive Color where
  | green
  | orange
  | red
  | gray
deriving Repr, DecidableEq

namespace WordReportGenerator

/-- total_tests of _add_executive_summary: sum of the declared per-suite
test counts. -/
def totalTests (suites : List TestSuite) : Int :=
  (suites.map TestSuite.tests).sum

/-- total_failures of _add_executive_summary. -/
def totalFailures (suites : List TestSuite) : Int :=
  (suites.map TestSuite.failures).sum

/-- total_errors of _add_executive_summary. -/
def totalErrors (suites : List TestSuite) : Int :=
  (suites.map TestSuite.errors).sum

/-- total_skipped of _add_executive_summary. -/
def totalSkipped (suites : List TestSuite) : Int :=
  (suites.map TestSuite.skipped).sum

/-- total_passed of _add_executive_summary: total tests minus failures
minus errors minus skipped (a plain subtraction, never clamped). -/
def totalPassed (suites : List TestSuite) : Int :=
  totalTests suites - totalFailures suites - totalErrors suites - totalSkipped suites

/-- total_time of _add_executive_summary. -/
def totalTime (suites : List TestSuite) : Rat :=
  (suites.map TestSuite.time).sum

/-- success_rate of _add_executive_summary: passed / total * 100 when
total_tests > 0, else 0. -/
def success_rate (suites : List TestSuite) : Rat :=
  if totalTests suites > 0 then
    (totalPassed suites : Rat) / (totalTests suites : Rat) * 100
  else 0

/-- The color the executive summary gives the success-rate run: green
for rate >= 95, orange for rate >= 80, red otherwise. -/
def rateColor (r : Rat) : Color :=
  if r ≥ 95 then Color.green
  else if r ≥ 80 then Color.orange
  else Color.red

/-- The per-suite passed count printed by _add_test_suite_section:
suite.tests - suite.failures - suite.errors - suite.skipped. -/
def suitePassed (s : TestSuite) : Int :=
  s.tests - s.failures - s.errors - s.skipped

/-- The details string emitted by _add_failed_test_details: text longer
than 500 characters is cut to 500 characters with the marker appended;
otherwise it is passed through unmodified. -/
def truncateDetails (details : String) : String :=
  if details.length > 500 then details.take 500 ++ "..." else details

/-- Top-level pieces generate_report appends to the document, in
emission order. -/
inductive Block where
  | title
  | execSummary (nSuites : Nat) (total passed failed errors skipped : Int)
      (rate : Rat) (color : Color)
  | suiteSection (s : TestSuite)
  | footer
deriving Repr, DecidableEq

/-- generate_report of junit_parser2.py, abstracted to the sequence of
top-level document pieces: a title, the executive summary, one section
per suite in list order, and the footer. -/
def generate_report (suites : List TestSuite) : List Block :=
  [Block.title,
   Block.execSummary suites.length (totalTests suites) (totalPassed suites)
     (totalFailures suites) (totalErrors suites) (totalSkipped suites)
     (success_rate suites) (rateColor (success_rate suites))]
  ++ suites.map Block.suiteSection
  ++ [Block.footer]

/-- The suite a document piece renders, if it is a suite section. -/
def blockSuite : Block → Option TestSuite
  | Block.suiteSection s => some s
  | _ => none

end WordReportGenerator

namespace JUnitParser1

/-- One entry of the results list built by parse_junit_xml of
junit_parser1.py (time is kept as the raw attribute string). -/
structure CaseResult where
  name : String
  classname : String
  time : String
  status : String
  message : String
  details : String
deriving Repr, DecidableEq

/-- The summary dict returned by parse_junit_xml of junit_parser1.py
(the time entry is the raw attribute string, never converted). -/
structure Summary where
  suite_name : String
  total : Int
  failures : Int
  errors : Int
  skipped : Int
  time : String
  results : List CaseResult
deriving Repr, DecidableEq

/-- The per-testcase body of the loop in parse_junit_xml of
junit_parser1.py: status, message and details from the first failure,
else error, else skipped child; passed when none is present. -/
def parse_case (e : Element) : CaseResult :=
  let name := e.getAttrD "name" ""
  let classname := e.getAttrD "classname" ""
  let time := e.getAttrD "time" "0"
  match e.findChild "failure" with
  | some failure =>
    ⟨name, classname, time, "failed", failure.getAttrD "message" "",
      textOr failure.text ""⟩
  | none =>
    match e.findChild "error" with
    | some error =>
      ⟨name, classname, time, "error", error.getAttrD "message" "",
        textOr error.text ""⟩
    | none =>
      match e.findChild "skipped" with
      | some _ => ⟨name, classname, time, "skipped", "", ""⟩
      | none => ⟨name, classname, time, "passed", "", ""⟩

/-- Model of int(root.attrib.get(k, d)) as it occurs in parse_junit_xml
of junit_parser1.py: int() of the string value of a present attribute,
which can raise, and the identity on the integer default d otherwise. -/
def attrCount (e : Element) (k : String) (d : Int) : Except PyErr Int :=
  match e.getAttr? k with
  | some s => toIntE s
  | none => Except.ok d

/-- parse_junit_xml of junit_parser1.py on the parsed root element.  The
root tag is never inspected; the summary counts come from the root
attributes, the total defaulting to the number of parsed cases and the
other counts to 0; the time entry is the raw attribute string. -/
def parse_junit_xml (root : Element) : Except PyErr Summary := do
  let total ← attrCount root "tests" (((root.findall "testcase").map parse_case).length : Int)
  let failures ← attrCount root "failures" 0
  let errors ← attrCount root "errors" 0
  let skipped ← attrCount root "skipped" 0
  return ⟨root.getAttrD "name" "TestSuite", total, failures, errors, skipped,
    root.getAttrD "time" "0", (root.findall "testcase").map parse_case⟩

end JUnitParser1

/-- A suite element carrying some numeric attribute (tests, failures,
errors, skipped or time) that is present but not a valid number for the
corresponding conversion. -/
def hasBadNumericAttr (e : Element) : Prop :=
  (∃ s, e.getAttr? "tests" = some s ∧ pyInt s = none) ∨
  (∃ s, e.getAttr? "failures" = some s ∧ pyInt s = none) ∨
  (∃ s, e.getAttr? "errors" = some s ∧ pyInt s = none) ∨
  (∃ s, e.getAttr? "skipped" = some s ∧ pyInt s = none) ∨
  (∃ s, e.getAttr? "time" = some s ∧ pyFloat s = none)

/-! ## Helper lemmas -/

/-- When the time attribute converts, _parse_testcase reduces to the
ordered check of the three child markers. -/
theorem parse_testcase_ok_status (e : Element) (tc : TestCase)
    (hok : JUnitXMLParser.parse_testcase e = Except.ok tc) :
    tc.status =
      (if (e.findChild "failure").isSome then "failed"
       else if (e.findChild "error").isSome then "error"
       else if (e.findChild "skipped").isSome then "skipped"
       else "passed") := by
  unfold JUnitXMLParser.parse_testcase at hok
  cases hf : toFloatE (e.getAttrD "time" "0") with
  | error err => rw [hf] at hok; cases hok
  | ok time =>
    rw [hf] at hok
    cases h1 : e.findChild "failure" with
    | some fe => rw [h1] at hok; cases hok; simp [h1]
    | none =>
      rw [h1] at hok
      cases h2 : e.findChild "error" with
      | some ee => rw [h2] at hok; cases hok; simp [h1, h2]
      | none =>
        rw [h2] at hok
        cases h3 : e.findChild "skipped" with
        | some se => rw [h3] at hok; cases hok; simp [h1, h2, h3]
        | none => rw [h3] at hok; cases hok; simp [h1, h2, h3]

/-- A successful inline int() means pyInt succeeded with that value. -/
theorem toIntE_ok {s : String} {n : Int} (h : toIntE s = Except.ok n) :
    pyInt s = some n := by
  unfold toIntE at h
  cases hp : pyInt s with
  | none => rw [hp] at h; cases h
  | some m => rw [hp] at h; cases h; rfl

/-- A failing pyInt makes the inline int() raise, carrying the string. -/
theorem toIntE_error {s : String} (h : pyInt s = none) :
    toIntE s = Except.error (PyErr.valueError s) := by
  unfold toIntE
  rw [h]

/-- A successful inline float() means pyFloat succeeded with that value. -/
theorem toFloatE_ok {s : String} {q : Rat} (h : toFloatE s = Except.ok q) :
    pyFloat s = some q := by
  unfold toFloatE at h
  cases hp : pyFloat s with
  | none => rw [hp] at h; cases h
  | some m => rw [hp] at h; cases h; rfl

/-- A failing pyFloat makes the inline float() raise, carrying the
string. -/
theorem toFloatE_error {s : String} (h : pyFloat s = none) :
    toFloatE s = Except.error (PyErr.valueError s) := by
  unfold toFloatE
  rw [h]

/-- Inversion of a successful _parse_testsuite: every numeric attribute
conversion succeeded, its value landing in the corresponding field, and
the cases come from mapping the testcase children. -/
theorem parse_testsuite_ok_inv (e : Element) (ts : TestSuite)
    (hok : JUnitXMLParser.parse_testsuite e = Except.ok ts) :
    pyInt (e.getAttrD "tests" "0") = some ts.tests ∧
    pyInt (e.getAttrD "failures" "0") = some ts.failures ∧
    pyInt (e.getAttrD "errors" "0") = some ts.errors ∧
    pyInt (e.getAttrD "skipped" "0") = some ts.skipped ∧
    pyFloat (e.getAttrD "time" "0") = some ts.time ∧
    (e.findall "testcase").mapM JUnitXMLParser.parse_testcase =
      Except.ok ts.test_cases ∧
    ts.name = e.getAttrD "name" "Unknown" := by
  unfold JUnitXMLParser.parse_testsuite at hok
  cases h1 : toIntE (e.getAttrD "tests" "0") with
  | error err => rw [h1] at hok; cases hok
  | ok tests =>
    rw [h1] at hok
    cases h2 : toIntE (e.getAttrD "failures" "0") with
    | error err => rw [h2] at hok; cases hok
    | ok failures =>
      rw [h2] at hok
      cases h3 : toIntE (e.getAttrD "errors" "0") with
      | error err => rw [h3] at hok; cases hok
      | ok errors =>
        rw [h3] at hok
        cases h4 : toIntE (e.getAttrD "skipped" "0") with
        | error err => rw [h4] at hok; cases hok
        | ok skipped =>
          rw [h4] at hok
          cases h5 : toFloatE (e.getAttrD "time" "0") with
          | error err => rw [h5] at hok; cases hok
          | ok time =>
            rw [h5] at hok
            cases h6 : (e.findall "testcase").mapM JUnitXMLParser.parse_testcase with
            | error err => rw [h6] at hok; cases hok
            | ok cases =>
              rw [h6] at hok
              cases hok
              exact ⟨toIntE_ok h1, toIntE_ok h2, toIntE_ok h3, toIntE_ok h4,
                toFloatE_ok h5, rfl, rfl⟩

/-- Every error _parse_testcase produces is an unwrapped ValueError
(from the float conversion of the time attribute). -/
theorem parse_testcase_error_inv (e : Element) (err : PyErr)
    (h : JUnitXMLParser.parse_testcase e = Except.error err) :
    ∃ v, err = PyErr.valueError v := by
  unfold JUnitXMLParser.parse_testcase at h
  cases hf : toFloatE (e.getAttrD "time" "0") with
  | error e2 =>
    rw [hf] at h
    cases h
    unfold toFloatE at hf
    cases hp : pyFloat (e.getAttrD "time" "0") with
    | none => rw [hp] at hf; cases hf; exact ⟨_, rfl⟩
    | some q => rw [hp] at hf; cases hf
  | ok time =>
    rw [hf] at h
    cases h1 : e.findChild "failure" with
    | some fe => rw [h1] at h; cases h
    | none =>
      rw [h1] at h
      cases h2 : e.findChild "error" with
      | some ee => rw [h2] at h; cases h
      | none =>
        rw [h2] at h
        cases h3 : e.findChild "skipped" with
        | some se => rw [h3] at h; cases h
        | none => rw [h3] at h; cases h

/-- Every error the testcase mapping produces is an unwrapped
ValueError. -/
theorem mapM_parse_testcase_error_inv (cs : List Element) (err : PyErr)
    (h : cs.mapM JUnitXMLParser.parse_testcase = Except.error err) :
    ∃ v, err = PyErr.valueError v := by
  induction cs with
  | nil => rw [List.mapM_nil] at h; cases h
  | cons c rest ih =>
    rw [List.mapM_cons] at h
    cases hc : JUnitXMLParser.parse_testcase c with
    | error e2 =>
      rw [hc] at h
      cases h
      exact parse_testcase_error_inv c err hc
    | ok tc =>
      rw [hc] at h
      cases hr : rest.mapM JUnitXMLParser.parse_testcase with
      | error e2 => rw [hr] at h; cases h; exact ih hr
      | ok tcs => rw [hr] at h; cases h

/-- Every error _parse_testsuite produces is an unwrapped ValueError. -/
theorem parse_testsuite_error_inv (e : Element) (err : PyErr)
    (h : JUnitXMLParser.parse_testsuite e = Except.error err) :
    ∃ v, err = PyErr.valueError v := by
  unfold JUnitXMLParser.parse_testsuite at h
  cases h1 : toIntE (e.getAttrD "tests" "0") with
  | error e2 =>
    rw [h1] at h; cases h
    unfold toIntE at h1
    cases hp : pyInt (e.getAttrD "tests" "0") with
    | none => rw [hp] at h1; cases h1; exact ⟨_, rfl⟩
    | some m => rw [hp] at h1; cases h1
  | ok tests =>
    rw [h1] at h
    cases h2 : toIntE (e.getAttrD "failures" "0") with
    | error e2 =>
      rw [h2] at h; cases h
      unfold toIntE at h2
      cases hp : pyInt (e.getAttrD "failures" "0") with
      | none => rw [hp] at h2; cases h2; exact ⟨_, rfl⟩
      | some m => rw [hp] at h2; cases h2
    | ok failures =>
      rw [h2] at h
      cases h3 : toIntE (e.getAttrD "errors" "0") with
      | error e2 =>
        rw [h3] at h; cases h
        unfold toIntE at h3
        cases hp : pyInt (e.getAttrD "errors" "0") with
        | none => rw [hp] at h3; cases h3; exact ⟨_, rfl⟩
        | some m => rw [hp] at h3; cases h3
      | ok errors =>
        rw [h3] at h
        cases h4 : toIntE (e.getAttrD "skipped" "0") with
        | error e2 =>
          rw [h4] at h; cases h
          unfold toIntE at h4
          cases hp : pyInt (e.getAttrD "skipped" "0") with
          | none => rw [hp] at h4; cases h4; exact ⟨_, rfl⟩
          | some m => rw [hp] at h4; cases h4
        | ok skipped =>
          rw [h4] at h
          cases h5 : toFloatE (e.getAttrD "time" "0") with
          | error e2 =>
            rw [h5] at h; cases h
            unfold toFloatE at h5
            cases hp : pyFloat (e.getAttrD "time" "0") with
            | none => rw [hp] at h5; cases h5; exact ⟨_, rfl⟩
            | some q => rw [hp] at h5; cases h5
          | ok time =>
            rw [h5] at h
            cases h6 : (e.findall "testcase").mapM JUnitXMLParser.parse_testcase with
            | error e2 =>
              rw [h6] at h; cases h
              exact mapM_parse_testcase_error_inv _ _ h6
            | ok cases => rw [h6] at h; cases h

/-- Inversion of a successful parse_junit_xml: a present tests attribute
converted to the total, an absent one defaulted to the case count, the
results come from the testcase children in order, and the time entry is
the raw attribute string. -/
theorem parse_junit_xml_ok_inv (root : Element) (s1 : JUnitParser1.Summary)
    (hok : JUnitParser1.parse_junit_xml root = Except.ok s1) :
    (∀ s, root.getAttr? "tests" = some s → pyInt s = some s1.total) ∧
    (root.getAttr? "tests" = none →
      s1.total = (((root.findall "testcase").map JUnitParser1.parse_case).length : Int)) ∧
    s1.results = (root.findall "testcase").map JUnitParser1.parse_case ∧
    s1.time = root.getAttrD "time" "0" ∧
    (∀ s, root.getAttr? "failures" = some s → pyInt s = some s1.failures) ∧
    (∀ s, root.getAttr? "errors" = some s → pyInt s = some s1.errors) ∧
    (∀ s, root.getAttr? "skipped" = some s → pyInt s = some s1.skipped) := by
  unfold JUnitParser1.parse_junit_xml at hok
  cases h1 : JUnitParser1.attrCount root "tests"
      (((root.findall "testcase").map JUnitParser1.parse_case).length : Int) with
  | error err => rw [h1] at hok; cases hok
  | ok total =>
    rw [h1] at hok
    cases h2 : JUnitParser1.attrCount root "failures" 0 with
    | error err => rw [h2] at hok; cases hok
    | ok failures =>
      rw [h2] at hok
      cases h3 : JUnitParser1.attrCount root "errors" 0 with
      | error err => rw [h3] at hok; cases hok
      | ok errors =>
        rw [h3] at hok
        cases h4 : JUnitParser1.attrCount root "skipped" 0 with
        | error err => rw [h4] at hok; cases hok
        | ok skipped =>
          rw [h4] at hok
          cases hok
          unfold JUnitParser1.attrCount at h1 h2 h3 h4
          refine ⟨?_, ?_, rfl, rfl, ?_, ?_, ?_⟩
          · intro s hs
            rw [hs] at h1
            exact toIntE_ok h1
          · intro hn
            rw [hn] at h1
            cases h1
            rfl
          · intro s hs
            rw [hs] at h2
            exact toIntE_ok h2
          · intro s hs
            rw [hs] at h3
            exact toIntE_ok h3
          · intro s hs
            rw [hs] at h4
            exact toIntE_ok h4

/-- A present attribute wins over the default. -/
theorem getAttrD_of_some {e : Element} {k s : String} (h : e.getAttr? k = some s)
    (d : String) : e.getAttrD k d = s := by
  unfold Element.getAttrD
  rw [h]
  rfl

/-- When _parse_testsuite cannot succeed on a single-suite root, parse
surfaces an unwrapped ValueError. -/
theorem parse_error_of_not_ok (root : Element) (htag : root.tag = "testsuite")
    (hnok : ∀ ts, JUnitXMLParser.parse_testsuite root ≠ Except.ok ts) :
    ∃ v, JUnitXMLParser.parse (some root) =
      Except.error (PyErr.valueError v) := by
  cases hp : JUnitXMLParser.parse_testsuite root with
  | ok ts => exact absurd hp (hnok ts)
  | error err =>
    obtain ⟨v, rfl⟩ := parse_testsuite_error_inv root err hp
    exact ⟨v, by simp [JUnitXMLParser.parse, htag, hp]⟩

/-- Every error the attribute conversion of junit_parser1.py produces
is an unwrapped ValueError. -/
theorem attrCount_error_inv (e : Element) (k : String) (d : Int) (err : PyErr)
    (h : JUnitParser1.attrCount e k d = Except.error err) :
    ∃ v, err = PyErr.valueError v := by
  unfold JUnitParser1.attrCount at h
  cases hs : e.getAttr? k with
  | none => rw [hs] at h; cases h
  | some s =>
    rw [hs] at h
    have h2 : toIntE s = Except.error err := h
    unfold toIntE at h2
    cases hp : pyInt s with
    | none => rw [hp] at h2; cases h2; exact ⟨_, rfl⟩
    | some n => rw [hp] at h2; cases h2

/-- Every error parse_junit_xml produces is an unwrapped ValueError. -/
theorem parse_junit_xml_error_inv (root : Element) (err : PyErr)
    (h : JUnitParser1.parse_junit_xml root = Except.error err) :
    ∃ v, err = PyErr.valueError v := by
  unfold JUnitParser1.parse_junit_xml at h
  cases h1 : JUnitParser1.attrCount root "tests"
      (((root.findall "testcase").map JUnitParser1.parse_case).length : Int) with
  | error e2 => rw [h1] at h; cases h; exact attrCount_error_inv _ _ _ _ h1
  | ok total =>
    rw [h1] at h
    cases h2 : JUnitParser1.attrCount root "failures" 0 with
    | error e2 => rw [h2] at h; cases h; exact attrCount_error_inv _ _ _ _ h2
    | ok failures =>
      rw [h2] at h
      cases h3 : JUnitParser1.attrCount root "errors" 0 with
      | error e2 => rw [h3] at h; cases h; exact attrCount_error_inv _ _ _ _ h3
      | ok errors =>
        rw [h3] at h
        cases h4 : JUnitParser1.attrCount root "skipped" 0 with
        | error e2 => rw [h4] at h; cases h; exact attrCount_error_inv _ _ _ _ h4
        | ok skipped => rw [h4] at h; cases h

/-- Every error the suite mapping of the multi-suite branch produces is
an unwrapped ValueError. -/
theorem mapM_parse_testsuite_error_inv (cs : List Element) (err : PyErr)
    (h : cs.mapM JUnitXMLParser.parse_testsuite = Except.error err) :
    ∃ v, err = PyErr.valueError v := by
  induction cs with
  | nil => rw [List.mapM_nil] at h; cases h
  | cons c rest ih =>
    rw [List.mapM_cons] at h
    cases hc : JUnitXMLParser.parse_testsuite c with
    | error e2 =>
      rw [hc] at h
      cases h
      exact parse_testsuite_error_inv c err hc
    | ok ts =>
      rw [hc] at h
      cases hr : rest.mapM JUnitXMLParser.parse_testsuite with
      | error e2 => rw [hr] at h; cases h; exact ih hr
      | ok tss => rw [hr] at h; cases h

/-- A successful suite mapping means every member suite element parsed
successfully. -/
theorem mapM_parse_testsuite_ok_mem (cs : List Element) (l : List TestSuite)
    (h : cs.mapM JUnitXMLParser.parse_testsuite = Except.ok l) :
    ∀ c ∈ cs, ∃ ts, JUnitXMLParser.parse_testsuite c = Except.ok ts := by
  induction cs generalizing l with
  | nil => intro c hc; cases hc
  | cons hd rest ih =>
    rw [List.mapM_cons] at h
    cases hh : JUnitXMLParser.parse_testsuite hd with
    | error e2 => rw [hh] at h; cases h
    | ok ts0 =>
      rw [hh] at h
      cases hr : rest.mapM JUnitXMLParser.parse_testsuite with
      | error e2 => rw [hr] at h; cases h
      | ok l2 =>
        intro c hc
        rcases List.mem_cons.mp hc with rfl | hmem
        · exact ⟨ts0, hh⟩
        · exact ih l2 hr c hmem

/-- A suite element with a present numeric attribute that does not
convert can never parse successfully. -/
theorem parse_testsuite_not_ok_of_bad (e : Element) (hbad : hasBadNumericAttr e) :
    ∀ ts, JUnitXMLParser.parse_testsuite e ≠ Except.ok ts := by
  intro ts hok
  have hinv := parse_testsuite_ok_inv e ts hok
  rcases hbad with ⟨s, hs, hn⟩ | ⟨s, hs, hn⟩ | ⟨s, hs, hn⟩ | ⟨s, hs, hn⟩ | ⟨s, hs, hn⟩
  · have h := hinv.1
    rw [getAttrD_of_some hs, hn] at h
    cases h
  · have h := hinv.2.1
    rw [getAttrD_of_some hs, hn] at h
    cases h
  · have h := hinv.2.2.1
    rw [getAttrD_of_some hs, hn] at h
    cases h
  · have h := hinv.2.2.2.1
    rw [getAttrD_of_some hs, hn] at h
    cases h
  · have h := hinv.2.2.2.2.1
    rw [getAttrD_of_some hs, hn] at h
    cases h

/-- When some testsuite child of a multi-suite root cannot parse, parse
surfaces an unwrapped ValueError through the suite mapping. -/
theorem parse_suites_error_of_not_ok (root c : Element)
    (htag : root.tag = "testsuites") (hc : c ∈ root.findall "testsuite")
    (hnok : ∀ ts, JUnitXMLParser.parse_testsuite c ≠ Except.ok ts) :
    ∃ v, JUnitXMLParser.parse (some root) =
      Except.error (PyErr.valueError v) := by
  have hred : JUnitXMLParser.parse (some root) =
      (root.findall "testsuite").mapM JUnitXMLParser.parse_testsuite := by
    simp [JUnitXMLParser.parse, htag]
  cases hm : (root.findall "testsuite").mapM JUnitXMLParser.parse_testsuite with
  | ok suites =>
    obtain ⟨ts, hts⟩ := mapM_parse_testsuite_ok_mem _ _ hm c hc
    exact absurd hts (hnok ts)
  | error err =>
    obtain ⟨v, rfl⟩ := mapM_parse_testsuite_error_inv _ _ hm
    exact ⟨v, by rw [hred, hm]⟩

/-! ## Claims -/

/-- Claim C1: the status of a parsed testcase is decided by the child
markers in the fixed priority order failure > error > skipped, a failure
child winning even when error or skipped children are also present, and
a case with none of the three markers is passed; the status is always
exactly one of the four strings.  Stated for _parse_testcase of
junit_parser2.py and for the case loop of parse_junit_xml of
junit_parser1.py. -/
theorem C1_status_priority :
    (∀ (e : Element) (tc : TestCase),
      JUnitXMLParser.parse_testcase e = Except.ok tc →
      ((e.findChild "failure").isSome → tc.status = "failed") ∧
      ((e.findChild "failure") = none → (e.findChild "error").isSome →
        tc.status = "error") ∧
      ((e.findChild "failure") = none → (e.findChild "error") = none →
        (e.findChild "skipped").isSome → tc.status = "skipped") ∧
      ((e.findChild "failure") = none → (e.findChild "error") = none →
        (e.findChild "skipped") = none → tc.status = "passed") ∧
      (tc.status = "failed" ∨ tc.status = "error" ∨ tc.status = "skipped" ∨
        tc.status = "passed")) ∧
    (∀ e : Element,
      (((e.findChild "failure").isSome →
          (JUnitParser1.parse_case e).status = "failed") ∧
       ((e.findChild "failure") = none → (e.findChild "error").isSome →
          (JUnitParser1.parse_case e).status = "error") ∧
       ((e.findChild "failure") = none → (e.findChild "error") = none →
          (e.findChild "skipped").isSome →
          (JUnitParser1.parse_case e).status = "skipped") ∧
       ((e.findChild "failure") = none → (e.findChild "error") = none →
          (e.findChild "skipped") = none →
          (JUnitParser1.parse_case e).status = "passed"))) := by
  constructor
  · intro e tc hok
    have hs := parse_testcase_ok_status e tc hok
    refine ⟨?_, ?_, ?_, ?_, ?_⟩
    · intro h1; simp [h1] at hs; exact hs
    · intro h1 h2; simp [h1, h2] at hs; exact hs
    · intro h1 h2 h3; simp [h1, h2, h3] at hs; exact hs
    · intro h1 h2 h3; simp [h1, h2, h3] at hs; exact hs
    · rw [hs]
      cases (e.findChild "failure").isSome <;>
        cases (e.findChild "error").isSome <;>
          cases (e.findChild "skipped").isSome <;> simp
  · intro e
    unfold JUnitParser1.parse_case
    refine ⟨?_, ?_, ?_, ?_⟩
    · intro h1
      cases h : e.findChild "failure" with
      | some fe => simp [h]
      | none => rw [h] at h1; simp at h1
    · intro h1 h2
      rw [h1]
      cases h : e.findChild "error" with
      | some ee => simp [h]
      | none => rw [h] at h2; simp at h2
    · intro h1 h2 h3
      rw [h1, h2]
      cases h : e.findChild "skipped" with
      | some se => simp [h]
      | none => rw [h] at h3; simp at h3
    · intro h1 h2 h3
      rw [h1, h2, h3]

/-- Witness for C1 on a malformed case carrying all three markers: the
failure marker wins and the status is failed, for both parsers. -/
theorem C1_status_priority_witness :
    (JUnitXMLParser.parse_testcase
        ⟨"testcase", [("name", "t1")],
          [⟨"failure", [("message", "m")], [], some "boom"⟩,
           ⟨"error", [], [], some "e"⟩,
           ⟨"skipped", [], [], none⟩], none⟩ =
      Except.ok ⟨"t1", "Unknown", 0, "failed", some "m", some "boom", none⟩) ∧
    (⟨"t1", "Unknown", (0 : Rat), "failed", some "m", some "boom",
        none⟩ : TestCase).status = "failed" ∧
    (JUnitParser1.parse_case
        ⟨"testcase", [("name", "t1")],
          [⟨"failure", [("message", "m")], [], some "boom"⟩,
           ⟨"error", [], [], some "e"⟩,
           ⟨"skipped", [], [], none⟩], none⟩).status = "failed" := by
  refine ⟨rfl, ?_, ?_⟩
  · exact (C1_status_priority.1
      ⟨"testcase", [("name", "t1")],
        [⟨"failure", [("message", "m")], [], some "boom"⟩,
         ⟨"error", [], [], some "e"⟩,
         ⟨"skipped", [], [], none⟩], none⟩
      ⟨"t1", "Unknown", 0, "failed", some "m", some "boom", none⟩ rfl).1
      (by decide)
  · exact (C1_status_priority.2
      ⟨"testcase", [("name", "t1")],
        [⟨"failure", [("message", "m")], [], some "boom"⟩,
         ⟨"error", [], [], some "e"⟩,
         ⟨"skipped", [], [], none⟩], none⟩).1 (by decide)

/-- Counterexample to claim C2: on a well-formed input whose root tag is
"html" (neither recognized shape), parse_junit_xml of junit_parser1.py
does not fail; it returns a silently empty summary. -/
theorem C2_root_tag_counterexample :
    (Element.mk "html" [] [] none).tag ≠ "testsuite" ∧
    (Element.mk "html" [] [] none).tag ≠ "testsuites" ∧
    JUnitParser1.parse_junit_xml (Element.mk "html" [] [] none) =
      Except.ok ⟨"TestSuite", 0, 0, 0, 0, "0", []⟩ := by
  refine ⟨by decide, by decide, rfl⟩

/-- Claim C2 as amended: JUnitXMLParser.parse of junit_parser2.py fails
with the ParseError naming the unexpected root tag whenever the root tag
is neither recognized shape; parse_junit_xml of junit_parser1.py never
inspects the root tag and, when the root carries no count attributes and
no testcase children, returns a silently empty summary instead. -/
theorem C2_root_tag :
    (∀ root : Element, root.tag ≠ "testsuite" → root.tag ≠ "testsuites" →
      JUnitXMLParser.parse (some root) =
        Except.error (PyErr.parseError ("Unexpected root element: " ++ root.tag))) ∧
    (∀ root : Element, root.findall "testcase" = [] →
      root.getAttr? "tests" = none → root.getAttr? "failures" = none →
      root.getAttr? "errors" = none → root.getAttr? "skipped" = none →
      JUnitParser1.parse_junit_xml root =
        Except.ok ⟨root.getAttrD "name" "TestSuite", 0, 0, 0, 0,
          root.getAttrD "time" "0", []⟩) := by
  constructor
  · intro root h1 h2
    simp only [JUnitXMLParser.parse]
    rw [if_neg h1, if_neg h2]
  · intro root hcases ht hf he hs
    simp only [JUnitParser1.parse_junit_xml, JUnitParser1.attrCount, hcases, ht, hf, he, hs]
    rfl

/-- Witness for C2: the amended statement applied to a concrete root
with tag "report" (parser2 part) and to the concrete root of the
counterexample shape with tag "html" (parser1 part). -/
theorem C2_root_tag_witness :
    JUnitXMLParser.parse (some (Element.mk "report" [] [] none)) =
      Except.error (PyErr.parseError "Unexpected root element: report") ∧
    JUnitParser1.parse_junit_xml (Element.mk "results" [] [] none) =
      Except.ok ⟨"TestSuite", 0, 0, 0, 0, "0", []⟩ := by
  constructor
  · exact C2_root_tag.1 (Element.mk "report" [] [] none) (by decide) (by decide)
  · exact C2_root_tag.2 (Element.mk "results" [] [] none) rfl rfl rfl rfl rfl

/-- Claim C3: the executive summary computes every aggregate count by
summing the declared per-suite counts and obtains the passed count as
total minus failures minus errors minus skipped; for a single suite
declaring tests=10, failures=2, errors=1, skipped=1 the rendered passed
count is 6, the success rate is 60 percent, and the rate is classified
into the lowest (red) color tier. -/
theorem C3_executive_summary :
    (∀ suites : List TestSuite,
      WordReportGenerator.totalTests suites = (suites.map TestSuite.tests).sum ∧
      WordReportGenerator.totalFailures suites = (suites.map TestSuite.failures).sum ∧
      WordReportGenerator.totalErrors suites = (suites.map TestSuite.errors).sum ∧
      WordReportGenerator.totalSkipped suites = (suites.map TestSuite.skipped).sum ∧
      WordReportGenerator.totalPassed suites =
        WordReportGenerator.totalTests suites - WordReportGenerator.totalFailures suites -
        WordReportGenerator.totalErrors suites - WordReportGenerator.totalSkipped suites) ∧
    (WordReportGenerator.totalPassed [⟨"Suite", 10, 2, 1, 1, 0, []⟩] = 6 ∧
     WordReportGenerator.success_rate [⟨"Suite", 10, 2, 1, 1, 0, []⟩] = 60 ∧
     WordReportGenerator.rateColor
       (WordReportGenerator.success_rate [⟨"Suite", 10, 2, 1, 1, 0, []⟩]) = Color.red) := by
  refine ⟨fun suites => ⟨rfl, rfl, rfl, rfl, rfl⟩, ?_, ?_, ?_⟩
  · decide
  · simp [WordReportGenerator.success_rate, WordReportGenerator.totalPassed,
      WordReportGenerator.totalTests, WordReportGenerator.totalFailures,
      WordReportGenerator.totalErrors, WordReportGenerator.totalSkipped]
    norm_num
  · have h : WordReportGenerator.success_rate [⟨"Suite", 10, 2, 1, 1, 0, []⟩] = 60 := by
      simp [WordReportGenerator.success_rate, WordReportGenerator.totalPassed,
        WordReportGenerator.totalTests, WordReportGenerator.totalFailures,
        WordReportGenerator.totalErrors, WordReportGenerator.totalSkipped]
      norm_num
    rw [h]
    simp [WordReportGenerator.rateColor]
    norm_num

/-- Claim C4: with an aggregate total of 0 the success rate is defined
as 0 and no division is attempted; with a positive total the rate is
passed over total times 100; the color tiers have inclusive lower
bounds, green exactly when the rate is at least 95, orange exactly when
it is at least 80 and below 95, red exactly when it is below 80. -/
theorem C4_success_rate_safety :
    (∀ suites : List TestSuite, WordReportGenerator.totalTests suites = 0 →
      WordReportGenerator.success_rate suites = 0) ∧
    (∀ suites : List TestSuite, 0 < WordReportGenerator.totalTests suites →
      WordReportGenerator.success_rate suites =
        (WordReportGenerator.totalPassed suites : Rat) /
          (WordReportGenerator.totalTests suites : Rat) * 100) ∧
    (∀ r : Rat,
      (WordReportGenerator.rateColor r = Color.green ↔ 95 ≤ r) ∧
      (WordReportGenerator.rateColor r = Color.orange ↔ 80 ≤ r ∧ r < 95) ∧
      (WordReportGenerator.rateColor r = Color.red ↔ r < 80)) := by
  refine ⟨?_, ?_, ?_⟩
  · intro suites h
    unfold WordReportGenerator.success_rate
    rw [if_neg]
    omega
  · intro suites h
    unfold WordReportGenerator.success_rate
    rw [if_pos h]
  · intro r
    unfold WordReportGenerator.rateColor
    split_ifs with h1 h2
    · refine ⟨⟨fun _ => h1, fun _ => rfl⟩,
        ⟨fun hc => absurd hc (by decide), fun hc => absurd h1 (not_le.mpr hc.2)⟩,
        ⟨fun hc => absurd hc (by decide),
         fun hc => absurd h1 (not_le.mpr (lt_of_lt_of_le hc (by norm_num)))⟩⟩
    · refine ⟨⟨fun hc => absurd hc (by decide), fun hc => absurd hc h1⟩,
        ⟨fun _ => ⟨h2, not_le.mp h1⟩, fun _ => rfl⟩,
        ⟨fun hc => absurd hc (by decide), fun hc => absurd h2 (not_le.mpr hc)⟩⟩
    · exact ⟨⟨fun hc => absurd hc (by decide), fun hc => absurd hc h1⟩,
        ⟨fun hc => absurd hc (by decide), fun hc => absurd hc.1 h2⟩,
        ⟨fun _ => not_le.mp h2, fun _ => rfl⟩⟩

/-- Witness for C4: the total of an empty suite list is 0 and yields
rate 0; a single suite declaring 10 tests with 2 failures, 1 error and 1
skip has positive total and rate 6/10*100; the boundary rates 95, 80 and
79 land in the green, orange and red tiers. -/
theorem C4_success_rate_safety_witness :
    WordReportGenerator.success_rate [] = 0 ∧
    WordReportGenerator.success_rate [⟨"S", 10, 2, 1, 1, 0, []⟩] =
      (WordReportGenerator.totalPassed [⟨"S", 10, 2, 1, 1, 0, []⟩] : Rat) /
        (WordReportGenerator.totalTests [⟨"S", 10, 2, 1, 1, 0, []⟩] : Rat) * 100 ∧
    WordReportGenerator.rateColor 95 = Color.green ∧
    WordReportGenerator.rateColor 80 = Color.orange ∧
    WordReportGenerator.rateColor 79 = Color.red := by
  refine ⟨C4_success_rate_safety.1 [] rfl,
    C4_success_rate_safety.2.1 [⟨"S", 10, 2, 1, 1, 0, []⟩] (by decide), ?_, ?_, ?_⟩
  · exact (C4_success_rate_safety.2.2 95).1.mpr (by norm_num)
  · exact (C4_success_rate_safety.2.2 80).2.1.mpr (by norm_num)
  · exact (C4_success_rate_safety.2.2 79).2.2.mpr (by norm_num)

/-- Claim C5: when a testcase carries a failure (or, failing that, an
error) marker whose text content is present, both parsers store that
text verbatim as the details field, with no truncation and no
substitution at parse time. -/
theorem C5_details_verbatim :
    (∀ (e fe : Element) (tc : TestCase) (t : String),
      e.findChild "failure" = some fe → fe.text = some t → t ≠ "" →
      JUnitXMLParser.parse_testcase e = Except.ok tc →
      tc.failure_details = some t) ∧
    (∀ (e ee : Element) (tc : TestCase) (t : String),
      e.findChild "failure" = none → e.findChild "error" = some ee →
      ee.text = some t → t ≠ "" →
      JUnitXMLParser.parse_testcase e = Except.ok tc →
      tc.failure_details = some t) ∧
    (∀ (e fe : Element) (t : String),
      e.findChild "failure" = some fe → fe.text = some t → t ≠ "" →
      (JUnitParser1.parse_case e).details = t) ∧
    (∀ (e ee : Element) (t : String),
      e.findChild "failure" = none → e.findChild "error" = some ee →
      ee.text = some t → t ≠ "" →
      (JUnitParser1.parse_case e).details = t) := by
  refine ⟨?_, ?_, ?_, ?_⟩
  · intro e fe tc t h1 ht htne hok
    unfold JUnitXMLParser.parse_testcase at hok
    cases hf : toFloatE (e.getAttrD "time" "0") with
    | error err => rw [hf] at hok; cases hok
    | ok time =>
      rw [hf, h1] at hok
      cases hok
      simp [textOr, ht, htne]
  · intro e ee tc t h1 h2 ht htne hok
    unfold JUnitXMLParser.parse_testcase at hok
    cases hf : toFloatE (e.getAttrD "time" "0") with
    | error err => rw [hf] at hok; cases hok
    | ok time =>
      rw [hf, h1, h2] at hok
      cases hok
      simp [textOr, ht, htne]
  · intro e fe t h1 ht htne
    unfold JUnitParser1.parse_case
    rw [h1]
    simp [textOr, ht, htne]
  · intro e ee t h1 h2 ht htne
    unfold JUnitParser1.parse_case
    rw [h1, h2]
    simp [textOr, ht, htne]

/-- Witness for C5: a concrete failure marker with a 600-character text
body is stored verbatim by both parsers (no truncation at 500, no
substitution). -/
theorem C5_details_verbatim_witness :
    (Element.mk "failure" [] [] (some (String.mk (List.replicate 600 'x')))).text =
      some (String.mk (List.replicate 600 'x')) ∧
    ∀ tc : TestCase,
      JUnitXMLParser.parse_testcase
        (Element.mk "testcase" []
          [Element.mk "failure" [] [] (some (String.mk (List.replicate 600 'x')))] none) =
        Except.ok tc →
      tc.failure_details = some (String.mk (List.replicate 600 'x')) := by
  refine ⟨rfl, fun tc hok => ?_⟩
  exact C5_details_verbatim.1
    (Element.mk "testcase" []
      [Element.mk "failure" [] [] (some (String.mk (List.replicate 600 'x')))] none)
    (Element.mk "failure" [] [] (some (String.mk (List.replicate 600 'x'))))
    tc (String.mk (List.replicate 600 'x')) rfl rfl (by decide) hok

/-- Claim C6: the renderer truncates details text strictly longer than
500 characters to 500 characters and appends the marker; details at or
below 500 characters pass through unmodified. -/
theorem C6_details_truncation :
    (∀ s : String, s.length > 500 →
      WordReportGenerator.truncateDetails s = s.take 500 ++ "...") ∧
    (∀ s : String, s.length ≤ 500 → WordReportGenerator.truncateDetails s = s) := by
  constructor
  · intro s h
    unfold WordReportGenerator.truncateDetails
    rw [if_pos h]
  · intro s h
    unfold WordReportGenerator.truncateDetails
    rw [if_neg (by omega)]

set_option maxRecDepth 8000 in
/-- Witness for C6: a 501-character string is truncated with the marker
appended; a short string passes through unmodified. -/
theorem C6_details_truncation_witness :
    (String.mk (List.replicate 501 'x')).length > 500 ∧
    WordReportGenerator.truncateDetails (String.mk (List.replicate 501 'x')) =
      (String.mk (List.replicate 501 'x')).take 500 ++ "..." ∧
    WordReportGenerator.truncateDetails "assertion failed" = "assertion failed" := by
  exact ⟨by decide, C6_details_truncation.1 (String.mk (List.replicate 501 'x')) (by decide),
    C6_details_truncation.2 "assertion failed" (by decide)⟩

/-- A child list whose members parse suite-by-suite to given suites is
mapped by _parse_testsuite to exactly that suite list, in order. -/
theorem mapM_parse_testsuite_of_forall₂ (cs : List Element) (ts : List TestSuite)
    (h : List.Forall₂ (fun c t => JUnitXMLParser.parse_testsuite c = Except.ok t) cs ts) :
    cs.mapM JUnitXMLParser.parse_testsuite = Except.ok ts := by
  induction h with
  | nil => rfl
  | cons hct _ ih => rw [List.mapM_cons, hct, ih]; rfl

/-- Claim C7: for a multi-suite input the parsed suites appear in
document order of the testsuite children, the renderer emits one suite
section per suite in that same order, and the aggregate total is the sum
of the declared per-suite test counts. -/
theorem C7_multi_suite_order :
    ∀ (root : Element) (suites : List TestSuite),
      root.tag = "testsuites" →
      List.Forall₂ (fun c t => JUnitXMLParser.parse_testsuite c = Except.ok t)
        (root.findall "testsuite") suites →
      JUnitXMLParser.parse (some root) = Except.ok suites ∧
      WordReportGenerator.totalTests suites = (suites.map TestSuite.tests).sum ∧
      (WordReportGenerator.generate_report suites).filterMap
        WordReportGenerator.blockSuite = suites := by
  intro root suites htag h
  refine ⟨?_, rfl, ?_⟩
  · have hred : JUnitXMLParser.parse (some root) =
        (root.findall "testsuite").mapM JUnitXMLParser.parse_testsuite := by
      simp [JUnitXMLParser.parse, htag]
    rw [hred]
    exact mapM_parse_testsuite_of_forall₂ _ _ h
  · simp [WordReportGenerator.generate_report, WordReportGenerator.blockSuite,
      List.filterMap_append]
    exact List.filterMap_some suites

/-- Witness for C7: suites A declaring 5 tests and B declaring 3 tests
parse in input order, the suite sections appear in that order, and the
aggregate total is 8. -/
theorem C7_multi_suite_order_witness :
    JUnitXMLParser.parse
      (some ⟨"testsuites", [],
        [⟨"testsuite", [("name", "A"), ("tests", "5")], [], none⟩,
         ⟨"testsuite", [("name", "B"), ("tests", "3")], [], none⟩], none⟩) =
      Except.ok [⟨"A", 5, 0, 0, 0, 0, []⟩, ⟨"B", 3, 0, 0, 0, 0, []⟩] ∧
    (WordReportGenerator.generate_report
        [⟨"A", 5, 0, 0, 0, 0, []⟩, ⟨"B", 3, 0, 0, 0, 0, []⟩]).filterMap
      WordReportGenerator.blockSuite =
      [⟨"A", 5, 0, 0, 0, 0, []⟩, ⟨"B", 3, 0, 0, 0, 0, []⟩] ∧
    WordReportGenerator.totalTests
      [⟨"A", 5, 0, 0, 0, 0, []⟩, ⟨"B", 3, 0, 0, 0, 0, []⟩] = 8 := by
  have h := C7_multi_suite_order
    ⟨"testsuites", [],
      [⟨"testsuite", [("name", "A"), ("tests", "5")], [], none⟩,
       ⟨"testsuite", [("name", "B"), ("tests", "3")], [], none⟩], none⟩
    [⟨"A", 5, 0, 0, 0, 0, []⟩, ⟨"B", 3, 0, 0, 0, 0, []⟩] rfl
    (List.Forall₂.cons rfl (List.Forall₂.cons rfl List.Forall₂.nil))
  exact ⟨h.1, h.2.2, by decide⟩

/-- Counterexample to claim C8: a suite element with no tests attribute
and exactly one testcase child is parsed by _parse_testsuite of
junit_parser2.py with a declared test count of 0, not the child count
1. -/
theorem C8_default_count_counterexample :
    (Element.mk "testsuite" [] [Element.mk "testcase" [] [] none] none).getAttr?
      "tests" = none ∧
    ((Element.mk "testsuite" [] [Element.mk "testcase" [] [] none] none).findall
      "testcase").length = 1 ∧
    JUnitXMLParser.parse_testsuite
      (Element.mk "testsuite" [] [Element.mk "testcase" [] [] none] none) =
      Except.ok ⟨"Unknown", 0, 0, 0, 0, 0,
        [⟨"Unknown", "Unknown", 0, "passed", none, none, none⟩]⟩ := by
  exact ⟨rfl, rfl, rfl⟩

/-- Claim C8 as amended: an absent tests attribute is defaulted to the
number of parsed testcase children only by parse_junit_xml of
junit_parser1.py; _parse_testsuite of junit_parser2.py defaults every
absent count attribute to 0 regardless of the children. -/
theorem C8_default_count :
    (∀ (root : Element) (s1 : JUnitParser1.Summary),
      root.getAttr? "tests" = none →
      JUnitParser1.parse_junit_xml root = Except.ok s1 →
      s1.total = ((root.findall "testcase").length : Int) ∧
      s1.results.length = (root.findall "testcase").length) ∧
    (∀ (e : Element) (ts : TestSuite),
      e.getAttr? "tests" = none →
      JUnitXMLParser.parse_testsuite e = Except.ok ts →
      ts.tests = 0) := by
  constructor
  · intro root s1 h hok
    have hinv := parse_junit_xml_ok_inv root s1 hok
    refine ⟨?_, by rw [hinv.2.2.1]; simp⟩
    rw [hinv.2.1 h]
    simp
  · intro e ts h hok
    have h1 := (parse_testsuite_ok_inv e ts hok).1
    have hd : e.getAttrD "tests" "0" = "0" := by
      unfold Element.getAttrD
      rw [h]
      rfl
    rw [hd] at h1
    have : pyInt "0" = some 0 := by decide
    rw [this] at h1
    injection h1 with h1
    exact h1.symm

/-- Witness for C8: a root with two testcase children and no tests
attribute gets total 2 from parser1, while the same shape gets declared
count 0 from parser2. -/
theorem C8_default_count_witness :
    ∀ s1 : JUnitParser1.Summary,
      JUnitParser1.parse_junit_xml
        (Element.mk "suite" []
          [Element.mk "testcase" [] [] none, Element.mk "testcase" [] [] none] none) =
        Except.ok s1 →
      s1.total = 2 := by
  intro s1 hok
  have h := (C8_default_count.1
    (Element.mk "suite" []
      [Element.mk "testcase" [] [] none, Element.mk "testcase" [] [] none] none)
    s1 rfl hok).1
  rw [h]
  rfl

/-- Counterexample to claim C9: parse_junit_xml of junit_parser1.py
never converts the time attribute, so a suite whose time attribute is
not a valid number parses successfully, the raw string passing through,
instead of raising the conversion ValueError. -/
theorem C9_conversion_counterexample :
    (Element.mk "testsuite" [("time", "abc")] [] none).getAttr? "time" =
      some "abc" ∧
    pyFloat "abc" = none ∧ pyInt "abc" = none ∧
    JUnitParser1.parse_junit_xml
      (Element.mk "testsuite" [("time", "abc")] [] none) =
      Except.ok ⟨"TestSuite", 0, 0, 0, 0, "abc", []⟩ := by
  exact ⟨rfl, by decide, by decide, rfl⟩

/-- Claim C9 as amended: in junit_parser2.py a present tests, failures,
errors, skipped or time attribute that is not a valid number — on the
single-suite root or on any testsuite child of a recognized multi-suite
root — makes parsing surface the ValueError of the numeric conversion
unwrapped, never the ParseError path and never a default; in
junit_parser1.py the same holds for the tests, failures, errors and
skipped count attributes, but the time attribute is never converted and
is stored verbatim. -/
theorem C9_conversion_valueerror :
    (∀ root : Element, root.tag = "testsuite" → hasBadNumericAttr root →
      ∃ v, JUnitXMLParser.parse (some root) =
        Except.error (PyErr.valueError v)) ∧
    (∀ root c : Element, root.tag = "testsuites" →
      c ∈ root.findall "testsuite" → hasBadNumericAttr c →
      ∃ v, JUnitXMLParser.parse (some root) =
        Except.error (PyErr.valueError v)) ∧
    (∀ (root : Element) (s : String),
      root.getAttr? "tests" = some s → pyInt s = none →
      JUnitParser1.parse_junit_xml root =
        Except.error (PyErr.valueError s)) ∧
    (∀ (root : Element) (s : String),
      root.getAttr? "failures" = some s → pyInt s = none →
      ∃ v, JUnitParser1.parse_junit_xml root =
        Except.error (PyErr.valueError v)) ∧
    (∀ (root : Element) (s : String),
      root.getAttr? "errors" = some s → pyInt s = none →
      ∃ v, JUnitParser1.parse_junit_xml root =
        Except.error (PyErr.valueError v)) ∧
    (∀ (root : Element) (s : String),
      root.getAttr? "skipped" = some s → pyInt s = none →
      ∃ v, JUnitParser1.parse_junit_xml root =
        Except.error (PyErr.valueError v)) ∧
    (∀ (root : Element) (s1 : JUnitParser1.Summary),
      JUnitParser1.parse_junit_xml root = Except.ok s1 →
      s1.time = root.getAttrD "time" "0") := by
  refine ⟨?_, ?_, ?_, ?_, ?_, ?_, ?_⟩
  · intro root htag hbad
    exact parse_error_of_not_ok root htag (parse_testsuite_not_ok_of_bad root hbad)
  · intro root c htag hc hbad
    exact parse_suites_error_of_not_ok root c htag hc
      (parse_testsuite_not_ok_of_bad c hbad)
  · intro root s hs hn
    simp only [JUnitParser1.parse_junit_xml, JUnitParser1.attrCount, hs,
      toIntE_error hn]
    rfl
  · intro root s hs hn
    cases hp : JUnitParser1.parse_junit_xml root with
    | ok s1 =>
      have h := (parse_junit_xml_ok_inv root s1 hp).2.2.2.2.1 s hs
      rw [hn] at h
      cases h
    | error err =>
      obtain ⟨v, rfl⟩ := parse_junit_xml_error_inv root err hp
      exact ⟨v, rfl⟩
  · intro root s hs hn
    cases hp : JUnitParser1.parse_junit_xml root with
    | ok s1 =>
      have h := (parse_junit_xml_ok_inv root s1 hp).2.2.2.2.2.1 s hs
      rw [hn] at h
      cases h
    | error err =>
      obtain ⟨v, rfl⟩ := parse_junit_xml_error_inv root err hp
      exact ⟨v, rfl⟩
  · intro root s hs hn
    cases hp : JUnitParser1.parse_junit_xml root with
    | ok s1 =>
      have h := (parse_junit_xml_ok_inv root s1 hp).2.2.2.2.2.2 s hs
      rw [hn] at h
      cases h
    | error err =>
      obtain ⟨v, rfl⟩ := parse_junit_xml_error_inv root err hp
      exact ⟨v, rfl⟩
  · intro root s1 hok
    exact (parse_junit_xml_ok_inv root s1 hok).2.2.2.1

/-- Witness for C9: parser2 raises the conversion ValueError for a
single-suite root declaring tests="abc", for one declaring
time="1.2.3", and for a multi-suite root whose testsuite child declares
tests="abc"; parser1 raises it for tests="abc" and for failures="xyz";
parser1 passes the unconvertible time string of the counterexample root
through verbatim. -/
theorem C9_conversion_valueerror_witness :
    (∃ v, JUnitXMLParser.parse
        (some (Element.mk "testsuite" [("tests", "abc")] [] none)) =
      Except.error (PyErr.valueError v)) ∧
    (∃ v, JUnitXMLParser.parse
        (some (Element.mk "testsuite" [("time", "1.2.3")] [] none)) =
      Except.error (PyErr.valueError v)) ∧
    (∃ v, JUnitXMLParser.parse
        (some (Element.mk "testsuites" []
          [Element.mk "testsuite" [("tests", "abc")] [] none] none)) =
      Except.error (PyErr.valueError v)) ∧
    JUnitParser1.parse_junit_xml
      (Element.mk "testsuite" [("tests", "abc")] [] none) =
      Except.error (PyErr.valueError "abc") ∧
    (∃ v, JUnitParser1.parse_junit_xml
        (Element.mk "testsuite" [("failures", "xyz")] [] none) =
      Except.error (PyErr.valueError v)) ∧
    (⟨"TestSuite", 0, 0, 0, 0, "abc", []⟩ : JUnitParser1.Summary).time = "abc" := by
  refine ⟨?_, ?_, ?_, ?_, ?_, rfl⟩
  · exact C9_conversion_valueerror.1
      (Element.mk "testsuite" [("tests", "abc")] [] none) rfl
      (Or.inl ⟨"abc", rfl, by decide⟩)
  · exact C9_conversion_valueerror.1
      (Element.mk "testsuite" [("time", "1.2.3")] [] none) rfl
      (Or.inr (Or.inr (Or.inr (Or.inr ⟨"1.2.3", rfl, by decide⟩))))
  · exact C9_conversion_valueerror.2.1
      (Element.mk "testsuites" []
        [Element.mk "testsuite" [("tests", "abc")] [] none] none)
      (Element.mk "testsuite" [("tests", "abc")] [] none) rfl
      (List.Mem.head _) (Or.inl ⟨"abc", rfl, by decide⟩)
  · exact C9_conversion_valueerror.2.2.1
      (Element.mk "testsuite" [("tests", "abc")] [] none) "abc" rfl (by decide)
  · exact C9_conversion_valueerror.2.2.2.1
      (Element.mk "testsuite" [("failures", "xyz")] [] none) "xyz" rfl (by decide)

/-- Counterexample to claim C10: a suite declaring tests=0 and
failures=1 has more failures+errors+skipped than tests, and the rendered
passed count is indeed -1, but the success rate computed from it is 0,
which lies inside the range 0 to 100 (the total is not positive, so the
guarded rate definition returns 0 rather than a value derived from the
negative passed count). -/
theorem C10_negative_passed_counterexample :
    (⟨"S", 0, 1, 0, 0, 0, []⟩ : TestSuite).failures +
        (⟨"S", 0, 1, 0, 0, 0, []⟩ : TestSuite).errors +
        (⟨"S", 0, 1, 0, 0, 0, []⟩ : TestSuite).skipped >
      (⟨"S", 0, 1, 0, 0, 0, []⟩ : TestSuite).tests ∧
    WordReportGenerator.suitePassed ⟨"S", 0, 1, 0, 0, 0, []⟩ = -1 ∧
    WordReportGenerator.totalPassed [⟨"S", 0, 1, 0, 0, 0, []⟩] = -1 ∧
    WordReportGenerator.success_rate [⟨"S", 0, 1, 0, 0, 0, []⟩] = 0 ∧
    (0 : Rat) ≤ WordReportGenerator.success_rate [⟨"S", 0, 1, 0, 0, 0, []⟩] ∧
    WordReportGenerator.success_rate [⟨"S", 0, 1, 0, 0, 0, []⟩] ≤ 100 := by
  have hr : WordReportGenerator.success_rate [⟨"S", 0, 1, 0, 0, 0, []⟩] = 0 := by
    unfold WordReportGenerator.success_rate
    rw [if_neg (by decide)]
  refine ⟨by decide, by decide, by decide, hr, by rw [hr], by rw [hr]; norm_num⟩

/-- Claim C10 as amended: the renderer never clamps the
subtraction-derived passed counts, so a suite whose declared
failures+errors+skipped exceed its declared tests gets a negative
per-suite and aggregate passed count; when such a suite also declares a
positive test total the success rate computed from it is negative, hence
outside the range 0 to 100, while with a non-positive declared total the
guarded rate definition returns 0. -/
theorem C10_negative_passed :
    (∀ s : TestSuite, s.failures + s.errors + s.skipped > s.tests →
      WordReportGenerator.suitePassed s < 0 ∧
      WordReportGenerator.totalPassed [s] < 0) ∧
    (∀ s : TestSuite, s.failures + s.errors + s.skipped > s.tests →
      0 < s.tests → WordReportGenerator.success_rate [s] < 0) ∧
    (∀ s : TestSuite, s.tests ≤ 0 →
      WordReportGenerator.success_rate [s] = 0) := by
  have htotals : ∀ s : TestSuite,
      WordReportGenerator.totalTests [s] = s.tests ∧
      WordReportGenerator.totalPassed [s] =
        s.tests - s.failures - s.errors - s.skipped := by
    intro s
    constructor
    · simp [WordReportGenerator.totalTests]
    · simp [WordReportGenerator.totalPassed, WordReportGenerator.totalTests,
        WordReportGenerator.totalFailures, WordReportGenerator.totalErrors,
        WordReportGenerator.totalSkipped]
  refine ⟨?_, ?_, ?_⟩
  · intro s h
    refine ⟨?_, ?_⟩
    · unfold WordReportGenerator.suitePassed
      omega
    · rw [(htotals s).2]
      omega
  · intro s h hpos
    have hp : WordReportGenerator.totalPassed [s] < 0 := by
      rw [(htotals s).2]; omega
    have ht : 0 < WordReportGenerator.totalTests [s] := by
      rw [(htotals s).1]; exact hpos
    unfold WordReportGenerator.success_rate
    rw [if_pos ht]
    have h1 : ((WordReportGenerator.totalPassed [s] : Int) : Rat) < 0 := by
      exact_mod_cast hp
    have h2 : (0 : Rat) < ((WordReportGenerator.totalTests [s] : Int) : Rat) := by
      exact_mod_cast ht
    exact mul_neg_of_neg_of_pos (div_neg_of_neg_of_pos h1 h2) (by norm_num)
  · intro s h
    unfold WordReportGenerator.success_rate
    rw [if_neg (by rw [(htotals s).1]; omega)]

/-- Witness for C10: a suite declaring tests=1 and failures=2 has a
negative rendered passed count and a success rate below 0, hence outside
the range 0 to 100. -/
theorem C10_negative_passed_witness :
    WordReportGenerator.suitePassed ⟨"S", 1, 2, 0, 0, 0, []⟩ < 0 ∧
    WordReportGenerator.totalPassed [⟨"S", 1, 2, 0, 0, 0, []⟩] < 0 ∧
    WordReportGenerator.success_rate [⟨"S", 1, 2, 0, 0, 0, []⟩] < 0 := by
  refine ⟨(C10_negative_passed.1 ⟨"S", 1, 2, 0, 0, 0, []⟩ (by decide)).1,
    (C10_negative_passed.1 ⟨"S", 1, 2, 0, 0, 0, []⟩ (by decide)).2,
    C10_negative_passed.2.1 ⟨"S", 1, 2, 0, 0, 0, []⟩ (by decide) (by decide)⟩

end TestReporter
